import Mathlib

/-!
Shallow embedding of src/script.py, a daily stock / FX reporting script.

Modelling conventions:
- Prices, rates and volumes are exact rationals; the provider series are
  lists of optional rationals and `dropna` removes the missing entries.
- Python `round(x, 2)` is round-half-to-even on hundredths (`round2`).
- The change values are numpy float64 scalars (`.iloc` on a pandas
  series): dividing by zero does not raise, it yields ±inf or nan with a
  RuntimeWarning, and a negative quotient that rounds to zero keeps its
  sign bit as the float -0.0 (likewise a zero numerator over a negative
  divisor). `PyFloat` represents exactly these reachable non-rational
  float outcomes next to the exact-rational finite case; series entries
  themselves are finite parsed data and stay plain rationals.
- `iloc[-1]` on an empty series raises `IndexError`, caught by the
  enclosing `try`/`except` of the source function, which converts it to
  a `(none, reason)` result.
- The provider calls themselves (`yf.Ticker(...).history`, `ticker.info`,
  `yf.download`) are inputs: either already-fetched data or a raised
  exception, handled by the `_io` wrappers below.
-/

/-- Python `Series.dropna()`: keep only the present observations. -/
def dropna (xs : List (Option ℚ)) : List ℚ := xs.filterMap id

/-- Round-half-to-even of a rational to the nearest integer, as Python
`round` does. -/
def rne (q : ℚ) : ℤ :=
  let f := ⌊q⌋
  let r := q - (f : ℚ)
  if r < 1 / 2 then f
  else if 1 / 2 < r then f + 1
  else if f % 2 = 0 then f else f + 1

/-- Python `round(x, 2)`: round-half-to-even on hundredths. -/
def round2 (q : ℚ) : ℚ := ((rne (q * 100) : ℤ) : ℚ) / 100

/-- Python `int(x)` on a number: truncation toward zero. -/
def truncInt (q : ℚ) : ℤ := if 0 ≤ q then ⌊q⌋ else ⌈q⌉

/-- A numpy/Python float as this program can produce it: an ordinary
finite value kept exact as a rational, the negatively signed zero -0.0,
the two infinities, or nan. `fin 0` is the float +0.0. -/
inductive PyFloat where
  | fin : ℚ → PyFloat
  | negZero
  | posInf
  | negInf
  | nan
deriving DecidableEq

/-- Float comparison `x > 0`: false on -0.0 and on nan. -/
def pyGtZero : PyFloat → Bool
  | .fin q => decide (0 < q)
  | .negZero => false
  | .posInf => true
  | .negInf => false
  | .nan => false

/-- Float comparison `x < 0`: false on -0.0 and on nan. -/
def pyLtZero : PyFloat → Bool
  | .fin q => decide (q < 0)
  | .negZero => false
  | .posInf => false
  | .negInf => true
  | .nan => false

/-- The expression `(current - previous) / previous * 100` of lines 88 and
123 under numpy float64 semantics: a zero divisor yields +inf, -inf or nan
by the sign of `current` (with a RuntimeWarning, not an exception), and a
zero numerator over a negative divisor yields the signed zero -0.0
(IEEE: `current - previous` is +0.0, and +0.0 divided by a negative is
-0.0). All other cases are exact. -/
def pctChange (current previous : ℚ) : PyFloat :=
  if previous = 0 then
    if 0 < current then .posInf
    else if current < 0 then .negInf
    else .nan
  else if current = previous ∧ previous < 0 then .negZero
  else .fin ((current - previous) / previous * 100)

/-- Python `round(x, 2)` on a float: infinities and nan pass through, a
negative finite value whose hundredths round to zero becomes -0.0
(`round(-0.001, 2)` is `-0.0`), -0.0 stays -0.0, and finite values round
half-to-even on hundredths. -/
def pyRound2 : PyFloat → PyFloat
  | .fin q => if q < 0 ∧ rne (q * 100) = 0 then .negZero else .fin (round2 q)
  | .negZero => .negZero
  | .posInf => .posInf
  | .negInf => .negInf
  | .nan => .nan

/-- Python `close_prices.iloc[-1]` on a non-empty series (default 0 is
never used under the emptiness guards of the source). -/
def lastClose (l : List ℚ) : ℚ := l.getLastD 0

/-- Python `close_prices.iloc[-2]` on a series of length at least 2. -/
def prevClose (l : List ℚ) : ℚ := l.getD (l.length - 2) 0

/-- Lines 78-80 of the source: `week_ago_price` is `close_prices.iloc[-days - 1]`
when `len(close_prices) >= days + 1`, else `None`. -/
def weekAgoClose (l : List ℚ) (days : ℕ) : Option ℚ :=
  if days + 1 ≤ l.length then some (l.getD (l.length - (days + 1)) 0) else none

/-- The `ticker.info` metadata the equity path reads: `fiftyTwoWeekHigh`
and `fiftyTwoWeekLow`, each possibly absent. -/
structure EquityInfo where
  fiftyTwoWeekHigh : Option ℚ
  fiftyTwoWeekLow : Option ℚ
deriving DecidableEq

/-- The dict returned by `get_price_data` on success. -/
structure PriceRecord where
  price : ℚ
  low_52w : ℚ
  high_52w : ℚ
  daily_change : PyFloat
  weekly_change : PyFloat
  volume : ℤ
deriving DecidableEq

/-- The dict returned by `get_fx_data` on success. -/
structure FxRecord where
  rate : ℚ
  daily_change : PyFloat
  weekly_change : PyFloat
deriving DecidableEq

/-- Error message of lines 73 and 114 of the source. -/
def insufficientMsg : String := "데이터 부족 또는 조회된 거래일이 2일 미만"

/-- Python message of the `IndexError` raised by `iloc` on an empty series. -/
def indexErrMsg : String := "single positional indexer is out-of-bounds"

/-- The `except` clause of `get_price_data` (line 101). -/
def queryFailEquity (e : String) : String := "조회 실패 (yfinance): " ++ e

/-- The `except` clause of `get_fx_data` (line 133). -/
def queryFailFx (e : String) : String := "조회 실패 (yfinance FX): " ++ e

/-- Lines 89 and 124 of the source: the conditional expression
`(current - week_ago) / week_ago * 100 if week_ago is not None and week_ago != 0
else 0.0`, with the division under the same float semantics as `pctChange`
(the guard keeps the divisor nonzero, so no infinity arises here). -/
def weeklyRaw (current : ℚ) (week_ago : Option ℚ) : PyFloat :=
  match week_ago with
  | some w => if w ≠ 0 then pctChange current w else .fin 0
  | none => .fin 0

/-- Lines 63-101 of the source: `get_price_data(symbol, days=5)` after the
provider data has been fetched. Inputs are the raw `Close` and `Volume`
series and the `ticker.info` metadata; the result is the Python pair
`(data_dict_or_None, error_string_or_None)`. The two exception sites
inside the `try` block — `volumes.iloc[-1]` raises IndexError on an empty
volume series (line 86), mapped to the `(None, message)` result produced by
the `except` clause. The division of line 88 acts on numpy float64
scalars, so a zero `yesterday_price` does not raise: it yields an
infinite (or nan) `daily_change` inside a normally returned record. -/
def get_price_data (closes volumes : List (Option ℚ)) (info : EquityInfo) (days : ℕ) :
    Option PriceRecord × Option String :=
  let close_prices := dropna closes
  let vols := dropna volumes
  if close_prices.length < 2 then (none, some insufficientMsg)
  else
    let current_price := lastClose close_prices
    let yesterday_price := prevClose close_prices
    let week_ago_price := weekAgoClose close_prices days
    let high_52w := info.fiftyTwoWeekHigh.getD 0
    let low_52w := info.fiftyTwoWeekLow.getD 0
    if vols.isEmpty then (none, some (queryFailEquity indexErrMsg))
    else
      let current_volume := lastClose vols
      let daily_change := pctChange current_price yesterday_price
      let weekly_change := weeklyRaw current_price week_ago_price
      (some { price := current_price
              low_52w := low_52w
              high_52w := high_52w
              daily_change := pyRound2 daily_change
              weekly_change := pyRound2 weekly_change
              volume := truncInt current_volume }, none)

/-- Lines 106-133 of the source: `get_fx_data(symbol, days=5)` after the
provider data has been fetched; input is the raw `Close` series. As in
the equity path, a zero `yesterday_rate` at line 123 does not raise under
numpy float64 semantics: the record comes back with an infinite (or nan)
daily change. -/
def get_fx_data (closes : List (Option ℚ)) (days : ℕ) :
    Option FxRecord × Option String :=
  let close_rates := dropna closes
  if close_rates.length < 2 then (none, some insufficientMsg)
  else
    let current_rate := lastClose close_rates
    let yesterday_rate := prevClose close_rates
    let week_ago_rate := weekAgoClose close_rates days
    let daily_change := pctChange current_rate yesterday_rate
    let weekly_change := weeklyRaw current_rate week_ago_rate
    (some { rate := round2 current_rate
            daily_change := pyRound2 daily_change
            weekly_change := pyRound2 weekly_change }, none)

/-- The whole `try` block of `get_price_data`, provider call included: a
provider-side exception is converted by the `except` clause into the
tagged failure result. -/
def get_price_data_io
    (fetched : Except String (List (Option ℚ) × List (Option ℚ) × EquityInfo))
    (days : ℕ) : Option PriceRecord × Option String :=
  match fetched with
  | .error e => (none, some (queryFailEquity e))
  | .ok (closes, volumes, info) => get_price_data closes volumes info days

/-- The whole `try` block of `get_fx_data`, provider call included. -/
def get_fx_data_io (fetched : Except String (List (Option ℚ)))
    (days : ℕ) : Option FxRecord × Option String :=
  match fetched with
  | .error e => (none, some (queryFailFx e))
  | .ok closes => get_fx_data closes days

/-- Reversed-digit comma grouping: a comma after every third digit,
working on the reversed digit string. -/
def commaRev : List Char → List Char
  | a :: b :: c :: d :: rest => a :: b :: c :: ',' :: commaRev (d :: rest)
  | l => l

/-- Python `{n:,}` on a natural number. -/
def natComma (n : ℕ) : String := ⟨(commaRev (toString n).data.reverse).reverse⟩

/-- Python `{i:,}` on an integer. -/
def intComma (i : ℤ) : String :=
  if i < 0 then "-" ++ natComma i.natAbs else natComma i.natAbs

/-- Two decimal digits, with a leading zero when needed. -/
def pad2 (r : ℕ) : String := if r < 10 then "0" ++ toString r else toString r

/-- Python `{x:.2f}` on a finite float kept as an exact rational: the
printed sign is the sign of the value itself, so a negative value whose
hundredths round to zero prints as "-0.00". -/
def fmt2Fin (q : ℚ) : String :=
  let a := (rne (q * 100)).natAbs
  let s := toString (a / 100) ++ "." ++ pad2 (a % 100)
  if q < 0 then "-" ++ s else s

/-- Python `{x:.2f}` on a float. -/
def fmt2 : PyFloat → String
  | .fin q => fmt2Fin q
  | .negZero => "-0.00"
  | .posInf => "inf"
  | .negInf => "-inf"
  | .nan => "nan"

/-- Python `{x:+.2f}` on a float: an explicit sign is always printed, and
it is the sign of the value (so `-0.001` and `-0.0` print "-0.00"). -/
def fmt2Signed : PyFloat → String
  | .fin q => if q < 0 then fmt2Fin q else "+" ++ fmt2Fin q
  | .negZero => "-0.00"
  | .posInf => "+inf"
  | .negInf => "-inf"
  | .nan => "+nan"

/-- Python `{x:,.2f}` on a finite value kept as an exact rational (used
for prices, ranges and rates, which the program keeps finite). -/
def fmtComma2 (q : ℚ) : String :=
  let a := (rne (q * 100)).natAbs
  let s := natComma (a / 100) ++ "." ++ pad2 (a % 100)
  if q < 0 then "-" ++ s else s

/-- Lines 157-164 of the source: `format_change(change_rate)`, with the
float comparisons of the two guards. -/
def format_change (change_rate : PyFloat) : String :=
  if pyGtZero change_rate then "*⬆️ +" ++ fmt2 change_rate ++ "%*"
  else if pyLtZero change_rate then "*⬇️ " ++ fmt2Signed change_rate ++ "%*"
  else "↔️ " ++ fmt2Signed change_rate ++ "%"

/-- Lines 167-198 of the source: `format_stock_message`. Python
`round(data[...])` with no digit count is round-half-to-even to an
integer, i.e. `rne`. -/
def format_stock_message (name symbol : String) (data : PriceRecord)
    (currency_symbol : String) (is_kr_stock : Bool) : String :=
  let price_str := if is_kr_stock then intComma (rne data.price) else fmtComma2 data.price
  let low_52w_str := if is_kr_stock then intComma (rne data.low_52w) else fmtComma2 data.low_52w
  let high_52w_str :=
    if is_kr_stock then intComma (rne data.high_52w) else fmtComma2 data.high_52w
  let daily_change_str := format_change data.daily_change
  let weekly_change_str := format_change data.weekly_change
  "• *" ++ name ++ "* (" ++ symbol ++ "): " ++ currency_symbol ++ price_str ++ "\n" ++
    "  > *변동률:* 일:" ++ daily_change_str ++ ", 주:" ++ weekly_change_str ++ "\n" ++
    "  > *거래량:* " ++ intComma data.volume ++ "주 | *52주 범위:* " ++
    currency_symbol ++ low_52w_str ++ " ~ " ++ currency_symbol ++ high_52w_str

/-- Python string interpolation of a value that may be `None`. -/
def pyOptStr (s : Option String) : String :=
  match s with
  | some t => t
  | none => "None"

/-- Lines 19-24 of the source: `KR_TICKERS`, in declaration order. -/
def KR_TICKERS : List (String × String) :=
  [("삼성전자", "005930.KS"), ("LG디스플레이", "034220.KS"),
   ("코스피", "^KS11"), ("코스닥", "^KQ11")]

/-- Lines 27-36 of the source: `US_TICKERS`, in declaration order. -/
def US_TICKERS : List (String × String) :=
  [("S&P 500", "^GSPC"), ("나스닥 종합", "^IXIC"), ("다우존스", "^DJI"),
   ("애플", "AAPL"), ("마이크로소프트", "MSFT"), ("엔비디아", "NVDA"),
   ("테슬라", "TSLA"), ("QQQ (나스닥100)", "QQQ")]

/-- Lines 39-58 of the source: `FX_TICKERS`, in declaration order. -/
def FX_TICKERS : List (String × String) :=
  [("USD", "KRW=X"), ("JPY", "JPYKRW=X"), ("EUR", "EURKRW=X"), ("GBP", "GBPKRW=X"),
   ("CNY", "CNYKRW=X"), ("CAD", "CADKRW=X"), ("AUD", "AUDKRW=X"), ("CHF", "CHFKRW=X"),
   ("SGD", "SGD/KRW=X"), ("HKD", "HKDKRW=X"), ("NZD", "NZD/KRW=X"), ("SEK", "SEKKRW=X"),
   ("NOK", "NOKKRW=X"), ("MXN", "MXNKRW=X"), ("BRL", "BRLKRW=X"), ("INR", "INRKRW=X"),
   ("TRY", "TRYKRW=X"), ("PLN", "PLNKRW=X")]

/-- One iteration of the equity group loops (lines 202-207 and 212-217):
`if data:` is dict truthiness, true exactly when a record came back. The
per-symbol fetch outcome (the network I/O of `get_price_data(symbol)`) is
the function argument. -/
def equity_line (fetch : String → Option PriceRecord × Option String)
    (currency_symbol : String) (is_kr_stock : Bool) (p : String × String) : String :=
  match fetch p.2 with
  | (some data, _) => format_stock_message p.1 p.2 data currency_symbol is_kr_stock
  | (none, error) => "• " ++ p.1 ++ " (" ++ p.2 ++ "): [조회 실패] - " ++ pyOptStr error

/-- One iteration of the FX loop (lines 224-236). Note the failure line
carries the display name only, not the provider symbol. -/
def fx_line (fetch : String → Option FxRecord × Option String)
    (p : String × String) : String :=
  match fetch p.2 with
  | (some data, _) =>
      "• *" ++ p.1 ++ "*: " ++ fmtComma2 data.rate ++ "원 (일:" ++
        format_change data.daily_change ++ ", 주:" ++ format_change data.weekly_change ++ ")"
  | (none, error) => "• *" ++ p.1 ++ "*: [조회 실패] - " ++ pyOptStr error

/-- Lines 201-208 of the source: the KR group section, header plus one line
per configured symbol. -/
def kr_section (fetch : String → Option PriceRecord × Option String) : List String :=
  "\n*🇰🇷 국내 주식 및 지수*" :: KR_TICKERS.map (equity_line fetch "₩" true)

/-- Lines 211-218 of the source: the US group section. -/
def us_section (fetch : String → Option PriceRecord × Option String) : List String :=
  "\n*🇺🇸 미국 주식 및 지수*" :: US_TICKERS.map (equity_line fetch "$" false)

/-- Lines 221-239 of the source: the FX group section. -/
def fx_section (fetch : String → Option FxRecord × Option String) : List String :=
  "\n*🌍 주요국 환율 (1 외화당 KRW)*" :: FX_TICKERS.map (fx_line fetch)

/-- Lines 241-244 of the source: the final report text, parameterized by
the per-symbol fetch outcomes and the run timestamp. -/
def final_message (fetchEq : String → Option PriceRecord × Option String)
    (fetchFx : String → Option FxRecord × Option String) (now : String) : String :=
  let message_parts := [String.intercalate "\n" (kr_section fetchEq),
    String.intercalate "\n" (us_section fetchEq),
    String.intercalate "\n" (fx_section fetchFx)]
  "🚀 *일일 주식/환율 자동 보고서* (" ++ now ++ ") 🚀\n" ++
    String.intercalate "\n" message_parts

/-- Lines 138-148 of the source: `send_to_slack(message)`. The transport
outcome is the input: a raised transport exception, or an HTTP status
code. `raise_for_status` raises for status codes 400-599; that exception,
like every `RequestException`, is caught and re-raised as `ValueError`
(the script's delivery error). `.ok ()` models a normal return. -/
def send_to_slack (response : Except String ℕ) : Except String Unit :=
  match response with
  | .error e => .error ("Slack 메시지 전송 실패: " ++ e)
  | .ok status_code =>
    if 400 ≤ status_code ∧ status_code < 600 then
      .error ("Slack 메시지 전송 실패: HTTP Error " ++ toString status_code)
    else if status_code ≠ 200 then
      .error ("Slack 메시지 전송 실패: Slack 서버 응답 오류: HTTP " ++ toString status_code)
    else .ok ()

/-- `beginsWith s t`: `t` is an initial segment of `s`. -/
def beginsWith : List Char → List Char → Bool
  | _, [] => true
  | [], _ :: _ => false
  | a :: s, b :: t => a == b && beginsWith s t

/-- `hasSub s t`: `t` occurs as a contiguous run inside `s`. -/
def hasSub : List Char → List Char → Bool
  | [], t => beginsWith [] t
  | a :: s, t => beginsWith (a :: s) t || hasSub s t

/-- Occurrence of `t` inside `s`, on strings. -/
def strHas (s t : String) : Bool := hasSub s.data t.data

theorem get_price_data_insufficient (closes volumes : List (Option ℚ)) (info : EquityInfo)
    (days : ℕ) (h : (dropna closes).length < 2) :
    get_price_data closes volumes info days = (none, some insufficientMsg) := by
  simp [get_price_data, h]

theorem get_price_data_empty_volumes (closes volumes : List (Option ℚ)) (info : EquityInfo)
    (days : ℕ) (h2 : 2 ≤ (dropna closes).length) (hv : dropna volumes = []) :
    get_price_data closes volumes info days = (none, some (queryFailEquity indexErrMsg)) := by
  simp [get_price_data, Nat.not_lt.mpr h2, hv]

theorem get_price_data_success (closes volumes : List (Option ℚ)) (info : EquityInfo)
    (days : ℕ) (h2 : 2 ≤ (dropna closes).length) (hv : dropna volumes ≠ []) :
    get_price_data closes volumes info days =
      (some { price := lastClose (dropna closes)
              low_52w := info.fiftyTwoWeekLow.getD 0
              high_52w := info.fiftyTwoWeekHigh.getD 0
              daily_change := pyRound2 (pctChange (lastClose (dropna closes))
                (prevClose (dropna closes)))
              weekly_change := pyRound2 (weeklyRaw (lastClose (dropna closes))
                (weekAgoClose (dropna closes) days))
              volume := truncInt (lastClose (dropna volumes)) }, none) := by
  simp [get_price_data, Nat.not_lt.mpr h2, hv]

theorem get_fx_data_insufficient (closes : List (Option ℚ)) (days : ℕ)
    (h : (dropna closes).length < 2) :
    get_fx_data closes days = (none, some insufficientMsg) := by
  simp [get_fx_data, h]

theorem get_fx_data_success (closes : List (Option ℚ)) (days : ℕ)
    (h2 : 2 ≤ (dropna closes).length) :
    get_fx_data closes days =
      (some { rate := round2 (lastClose (dropna closes))
              daily_change := pyRound2 (pctChange (lastClose (dropna closes))
                (prevClose (dropna closes)))
              weekly_change := pyRound2 (weeklyRaw (lastClose (dropna closes))
                (weekAgoClose (dropna closes) days)) }, none) := by
  simp [get_fx_data, Nat.not_lt.mpr h2]

theorem get_price_data_of_some (closes volumes : List (Option ℚ)) (info : EquityInfo)
    (days : ℕ) (rec : PriceRecord) (err : Option String)
    (h : get_price_data closes volumes info days = (some rec, err)) :
    2 ≤ (dropna closes).length ∧ dropna volumes ≠ [] ∧
    rec = { price := lastClose (dropna closes)
            low_52w := info.fiftyTwoWeekLow.getD 0
            high_52w := info.fiftyTwoWeekHigh.getD 0
            daily_change := pyRound2 (pctChange (lastClose (dropna closes))
              (prevClose (dropna closes)))
            weekly_change := pyRound2 (weeklyRaw (lastClose (dropna closes))
              (weekAgoClose (dropna closes) days))
            volume := truncInt (lastClose (dropna volumes)) } ∧ err = none := by
  by_cases h1 : (dropna closes).length < 2
  · rw [get_price_data_insufficient _ _ _ _ h1] at h; simp at h
  · by_cases hv : dropna volumes = []
    · rw [get_price_data_empty_volumes _ _ _ _ (Nat.not_lt.mp h1) hv] at h; simp at h
    · rw [get_price_data_success _ _ _ _ (Nat.not_lt.mp h1) hv] at h
      simp only [Prod.mk.injEq, Option.some.injEq] at h
      exact ⟨Nat.not_lt.mp h1, hv, h.1.symm, h.2.symm⟩

theorem get_fx_data_of_some (closes : List (Option ℚ)) (days : ℕ)
    (rec : FxRecord) (err : Option String)
    (h : get_fx_data closes days = (some rec, err)) :
    2 ≤ (dropna closes).length ∧
    rec = { rate := round2 (lastClose (dropna closes))
            daily_change := pyRound2 (pctChange (lastClose (dropna closes))
              (prevClose (dropna closes)))
            weekly_change := pyRound2 (weeklyRaw (lastClose (dropna closes))
              (weekAgoClose (dropna closes) days)) } ∧ err = none := by
  by_cases h1 : (dropna closes).length < 2
  · rw [get_fx_data_insufficient _ _ h1] at h; simp at h
  · rw [get_fx_data_success _ _ (Nat.not_lt.mp h1)] at h
    simp only [Prod.mk.injEq, Option.some.injEq] at h
    exact ⟨Nat.not_lt.mp h1, h.1.symm, h.2.symm⟩

theorem get_price_data_shape (closes volumes : List (Option ℚ)) (info : EquityInfo)
    (days : ℕ) :
    (∃ rec, get_price_data closes volumes info days = (some rec, none)) ∨
    (∃ e, get_price_data closes volumes info days = (none, some e)) := by
  by_cases h1 : (dropna closes).length < 2
  · exact Or.inr ⟨_, get_price_data_insufficient _ _ _ _ h1⟩
  · by_cases hv : dropna volumes = []
    · exact Or.inr ⟨_, get_price_data_empty_volumes _ _ _ _ (Nat.not_lt.mp h1) hv⟩
    · exact Or.inl ⟨_, get_price_data_success _ _ _ _ (Nat.not_lt.mp h1) hv⟩

theorem get_fx_data_shape (closes : List (Option ℚ)) (days : ℕ) :
    (∃ rec, get_fx_data closes days = (some rec, none)) ∨
    (∃ e, get_fx_data closes days = (none, some e)) := by
  by_cases h1 : (dropna closes).length < 2
  · exact Or.inr ⟨_, get_fx_data_insufficient _ _ h1⟩
  · exact Or.inl ⟨_, get_fx_data_success _ _ (Nat.not_lt.mp h1)⟩

theorem round2_zero : round2 0 = 0 := by norm_num [round2, rne]

theorem pyRound2_fin_zero : pyRound2 (PyFloat.fin 0) = PyFloat.fin 0 := by
  simp [pyRound2, round2_zero]

theorem weekAgoClose_none_or_zero (l : List ℚ) (days : ℕ)
    (h : l.length < days + 1 ∨ l.getD (l.length - (days + 1)) 0 = 0) :
    weekAgoClose l days = none ∨ weekAgoClose l days = some 0 := by
  rcases h with h | h
  · exact Or.inl (by simp [weekAgoClose, Nat.not_le.mpr h])
  · by_cases hle : days + 1 ≤ l.length
    · exact Or.inr (by simp only [weekAgoClose, if_pos hle, h])
    · exact Or.inl (by simp [weekAgoClose, hle])

theorem weeklyRaw_eq_zero (current : ℚ) (w : Option ℚ)
    (h : w = none ∨ w = some 0) : weeklyRaw current w = PyFloat.fin 0 := by
  rcases h with h | h <;> simp [weeklyRaw, h]

/-- C1: whenever `get_price_data` returns a record and the previous close
is nonzero, its daily change is `(current - previous) / previous * 100`
rounded to 2 decimal places under float semantics (`pyRound2` of
`pctChange`, and away from the signed-zero corner `pctChange` is exactly
the rational formula); on the close series `[100, 98, 102, 101, 99, 103]`
with weekly lookback 5 the normalizer reports a daily change of 4.04 and a
weekly change of 3.00. -/
theorem daily_change_formula_and_scenario :
    (∀ (closes volumes : List (Option ℚ)) (info : EquityInfo) (days : ℕ)
      (rec : PriceRecord) (err : Option String),
      get_price_data closes volumes info days = (some rec, err) →
      prevClose (dropna closes) ≠ 0 →
      rec.daily_change = pyRound2 (pctChange (lastClose (dropna closes))
        (prevClose (dropna closes)))) ∧
    (∀ c p : ℚ, p ≠ 0 → ¬(c = p ∧ p < 0) →
      pctChange c p = PyFloat.fin ((c - p) / p * 100)) ∧
    get_fx_data [some 100, some 98, some 102, some 101, some 99, some 103] 5 =
      (some { rate := 103, daily_change := PyFloat.fin 4.04,
              weekly_change := PyFloat.fin 3 }, none) := by
  refine ⟨?_, ?_, ?_⟩
  · intro closes volumes info days rec err h hp
    obtain ⟨-, -, hrec, -⟩ := get_price_data_of_some _ _ _ _ _ _ h
    rw [hrec]
  · intro c p hp hc
    simp [pctChange, hp, hc]
  · norm_num [get_fx_data, dropna, lastClose, prevClose, weekAgoClose, weeklyRaw,
      pctChange, pyRound2, round2, rne, List.filterMap, List.getLastD, List.getD]

/-- C1 witness: the daily-change clause applied at the scenario series with
a one-entry volume series. -/
theorem daily_change_formula_and_scenario_witness :
    (⟨103, 0, 0, PyFloat.fin 4.04, PyFloat.fin 3, 1⟩ : PriceRecord).daily_change =
      pyRound2 (pctChange
        (lastClose (dropna [some 100, some 98, some 102, some 101, some 99, some 103]))
        (prevClose (dropna [some 100, some 98, some 102, some 101, some 99, some 103]))) :=
  daily_change_formula_and_scenario.1
    [some 100, some 98, some 102, some 101, some 99, some 103] [some 1] ⟨none, none⟩ 5
    ⟨103, 0, 0, PyFloat.fin 4.04, PyFloat.fin 3, 1⟩ none
    (by norm_num [get_price_data, dropna, lastClose, prevClose, weekAgoClose, weeklyRaw,
      pctChange, pyRound2, round2, rne, truncInt, List.filterMap, List.getLastD, List.getD])
    (by norm_num [prevClose, dropna, List.filterMap, List.getD])

/-- C2: whenever a record is returned and the weekly-lookback offset is
absent (fewer than lookback+1 observations) or the close there is exactly
0, the record's weekly change is exactly 0 — an ordinary field of a
success record, on both the equity path and the FX path. -/
theorem weekly_change_zero_policy :
    (∀ (closes volumes : List (Option ℚ)) (info : EquityInfo) (days : ℕ)
      (rec : PriceRecord) (err : Option String),
      get_price_data closes volumes info days = (some rec, err) →
      ((dropna closes).length < days + 1 ∨
        (dropna closes).getD ((dropna closes).length - (days + 1)) 0 = 0) →
      rec.weekly_change = PyFloat.fin 0) ∧
    (∀ (closes : List (Option ℚ)) (days : ℕ) (rec : FxRecord) (err : Option String),
      get_fx_data closes days = (some rec, err) →
      ((dropna closes).length < days + 1 ∨
        (dropna closes).getD ((dropna closes).length - (days + 1)) 0 = 0) →
      rec.weekly_change = PyFloat.fin 0) := by
  constructor
  · intro closes volumes info days rec err h hoff
    obtain ⟨-, -, hrec, -⟩ := get_price_data_of_some _ _ _ _ _ _ h
    rw [hrec]
    rcases weekAgoClose_none_or_zero (dropna closes) days hoff with hw | hw <;>
      simp [hw, weeklyRaw, pyRound2_fin_zero]
  · intro closes days rec err h hoff
    obtain ⟨-, hrec, -⟩ := get_fx_data_of_some _ _ _ _ h
    rw [hrec]
    rcases weekAgoClose_none_or_zero (dropna closes) days hoff with hw | hw <;>
      simp [hw, weeklyRaw, pyRound2_fin_zero]

/-- C2 witness: the series [50, 50] with lookback 5 (offset absent) on both
paths. -/
theorem weekly_change_zero_policy_witness :
    (⟨50, 0, 0, PyFloat.fin 0, PyFloat.fin 0, 7⟩ : PriceRecord).weekly_change =
      PyFloat.fin 0 ∧
    (⟨50, PyFloat.fin 0, PyFloat.fin 0⟩ : FxRecord).weekly_change = PyFloat.fin 0 :=
  ⟨weekly_change_zero_policy.1 [some 50, some 50] [some 7] ⟨none, none⟩ 5
      ⟨50, 0, 0, PyFloat.fin 0, PyFloat.fin 0, 7⟩ none
      (by norm_num [get_price_data, dropna, lastClose, prevClose, weekAgoClose, weeklyRaw,
        pctChange, pyRound2, round2, rne, truncInt, List.filterMap, List.getLastD, List.getD])
      (Or.inl (by decide)),
   weekly_change_zero_policy.2 [some 50, some 50] 5 ⟨50, PyFloat.fin 0, PyFloat.fin 0⟩ none
      (by norm_num [get_fx_data, dropna, lastClose, prevClose, weekAgoClose, weeklyRaw,
        pctChange, pyRound2, round2, rne, List.filterMap, List.getLastD, List.getD])
      (Or.inl (by decide))⟩

/-- C3: fewer than 2 non-null closes is a per-symbol failure carrying the
insufficient-data message and no record, on both paths. -/
theorem insufficient_data_failure (closes volumes : List (Option ℚ)) (info : EquityInfo)
    (days : ℕ) (h : (dropna closes).length < 2) :
    get_price_data closes volumes info days = (none, some insufficientMsg) ∧
    get_fx_data closes days = (none, some insufficientMsg) :=
  ⟨get_price_data_insufficient _ _ _ _ h, get_fx_data_insufficient _ _ h⟩

/-- C3 witness: a one-element close series. -/
theorem insufficient_data_failure_witness :
    get_price_data [some 1] [] ⟨none, none⟩ 5 = (none, some insufficientMsg) ∧
    get_fx_data [some 1] 5 = (none, some insufficientMsg) :=
  insufficient_data_failure [some 1] [] ⟨none, none⟩ 5 (by decide)

/-- C4: at the claim's failing input the program does not fail. The
divisions of lines 88 and 123 act on numpy float64 scalars, so a previous
close of exactly 0 yields +inf with a RuntimeWarning instead of raising
ZeroDivisionError: on the series [0, 10] both normalizers return a success
record whose daily change is +inf, not a per-symbol failure. -/
theorem zero_previous_close_returns_inf :
    get_fx_data [some 0, some 10] 5 =
      (some { rate := 10, daily_change := PyFloat.posInf,
              weekly_change := PyFloat.fin 0 }, none) ∧
    get_price_data [some 0, some 10] [some 5] ⟨none, none⟩ 5 =
      (some { price := 10, low_52w := 0, high_52w := 0,
              daily_change := PyFloat.posInf, weekly_change := PyFloat.fin 0,
              volume := 5 }, none) := by
  constructor <;>
    norm_num [get_fx_data, get_price_data, dropna, lastClose, prevClose, weekAgoClose,
      weeklyRaw, pctChange, pyRound2, round2, rne, truncInt,
      List.filterMap, List.getLastD, List.getD]

/-- C5: normalization never raises past its boundary: for every provider
outcome, including a raised provider exception, the result is either a
record with no error or no record with a reason string. -/
theorem normalizers_never_raise :
    (∀ (fetched : Except String (List (Option ℚ) × List (Option ℚ) × EquityInfo)) (days : ℕ),
      (∃ rec, get_price_data_io fetched days = (some rec, none)) ∨
      (∃ e, get_price_data_io fetched days = (none, some e))) ∧
    (∀ (fetched : Except String (List (Option ℚ))) (days : ℕ),
      (∃ rec, get_fx_data_io fetched days = (some rec, none)) ∨
      (∃ e, get_fx_data_io fetched days = (none, some e))) := by
  constructor
  · intro fetched days
    cases fetched with
    | error e => exact Or.inr ⟨_, rfl⟩
    | ok d =>
      obtain ⟨closes, volumes, info⟩ := d
      exact get_price_data_shape closes volumes info days
  · intro fetched days
    cases fetched with
    | error e => exact Or.inr ⟨_, rfl⟩
    | ok closes => exact get_fx_data_shape closes days

/-- C6 counterexample: in the FX group the failure line for the configured
pair ("USD", "KRW=X") carries the display name and the reason but not the
provider symbol, so the claim that every group's failure lines carry
display name, symbol and reason fails at this concrete input. -/
theorem fx_fail_line_omits_symbol :
    FX_TICKERS.getD 0 ("", "") = ("USD", "KRW=X") ∧
    fx_line (fun _ => (none, some insufficientMsg)) ("USD", "KRW=X") =
      "• *USD*: [조회 실패] - " ++ insufficientMsg ∧
    strHas ("• *USD*: [조회 실패] - " ++ insufficientMsg) "KRW=X" = false := by
  refine ⟨rfl, rfl, by decide⟩

/-- C6 (amended): every group section always renders its header plus
exactly one line per configured symbol, in declared order, each line
depending only on that symbol's own fetch outcome (a success line when a
record came back, else a failure line), so no per-symbol failure aborts a
group, and the final message assembles all three group sections whatever
the outcomes; equity failure lines carry display name, provider symbol
and reason, while FX failure lines carry display name and reason only. -/
theorem group_line_structure :
    (∀ fetch : String → Option PriceRecord × Option String,
      (kr_section fetch).length = 1 + KR_TICKERS.length ∧
      (us_section fetch).length = 1 + US_TICKERS.length) ∧
    (∀ fetch : String → Option FxRecord × Option String,
      (fx_section fetch).length = 1 + FX_TICKERS.length) ∧
    (∀ (tickers : List (String × String)) (fetch : String → Option PriceRecord × Option String)
      (cur : String) (kr : Bool) (i : ℕ) (h : i < tickers.length),
      (tickers.map (equity_line fetch cur kr)).get
          ⟨i, (tickers.length_map (equity_line fetch cur kr)).symm ▸ h⟩ =
        equity_line fetch cur kr (tickers.get ⟨i, h⟩)) ∧
    (∀ (tickers : List (String × String)) (fetch : String → Option FxRecord × Option String)
      (i : ℕ) (h : i < tickers.length),
      (tickers.map (fx_line fetch)).get ⟨i, (tickers.length_map (fx_line fetch)).symm ▸ h⟩ =
        fx_line fetch (tickers.get ⟨i, h⟩)) ∧
    (∀ (fetch : String → Option PriceRecord × Option String) (cur : String) (kr : Bool)
      (name symbol : String) (d : PriceRecord) (err : Option String),
      fetch symbol = (some d, err) →
      equity_line fetch cur kr (name, symbol) = format_stock_message name symbol d cur kr) ∧
    (∀ (fetch : String → Option PriceRecord × Option String) (cur : String) (kr : Bool)
      (name symbol : String) (e : Option String), fetch symbol = (none, e) →
      equity_line fetch cur kr (name, symbol) =
        "• " ++ name ++ " (" ++ symbol ++ "): [조회 실패] - " ++ pyOptStr e) ∧
    (∀ (fetch : String → Option FxRecord × Option String) (name symbol : String)
      (d : FxRecord) (err : Option String), fetch symbol = (some d, err) →
      fx_line fetch (name, symbol) =
        "• *" ++ name ++ "*: " ++ fmtComma2 d.rate ++ "원 (일:" ++
          format_change d.daily_change ++ ", 주:" ++ format_change d.weekly_change ++ ")") ∧
    (∀ (fetch : String → Option FxRecord × Option String) (name symbol : String)
      (e : Option String), fetch symbol = (none, e) →
      fx_line fetch (name, symbol) = "• *" ++ name ++ "*: [조회 실패] - " ++ pyOptStr e) ∧
    (∀ (fetchEq : String → Option PriceRecord × Option String)
      (fetchFx : String → Option FxRecord × Option String) (now : String),
      final_message fetchEq fetchFx now =
        "🚀 *일일 주식/환율 자동 보고서* (" ++ now ++ ") 🚀\n" ++
          String.intercalate "\n" [String.intercalate "\n" (kr_section fetchEq),
            String.intercalate "\n" (us_section fetchEq),
            String.intercalate "\n" (fx_section fetchFx)]) := by
  refine ⟨?_, ?_, ?_, ?_, ?_, ?_, ?_, ?_, ?_⟩
  · intro fetch
    constructor <;> simp [kr_section, us_section, Nat.add_comm]
  · intro fetch
    simp [fx_section, Nat.add_comm]
  · intro tickers fetch cur kr i h
    simp only [List.get_eq_getElem, List.getElem_map]
  · intro tickers fetch i h
    simp only [List.get_eq_getElem, List.getElem_map]
  · intro fetch cur kr name symbol d err hfetch
    simp [equity_line, hfetch]
  · intro fetch cur kr name symbol e hfetch
    simp [equity_line, hfetch]
  · intro fetch name symbol d err hfetch
    simp [fx_line, hfetch]
  · intro fetch name symbol e hfetch
    simp [fx_line, hfetch]
  · intro fetchEq fetchFx now
    rfl

/-- C6 witness: the failure-line clause at the US-group symbol AAPL with a
concrete failing fetch, and a section length at that fetch. -/
theorem group_line_structure_witness :
    equity_line (fun _ => (none, some "boom")) "$" false ("애플", "AAPL") =
      "• " ++ "애플" ++ " (" ++ "AAPL" ++ "): [조회 실패] - " ++ pyOptStr (some "boom") ∧
    (us_section (fun _ => (none, some "boom"))).length = 1 + US_TICKERS.length :=
  ⟨group_line_structure.2.2.2.2.2.1 (fun _ => (none, some "boom")) "$" false
      "애플" "AAPL" (some "boom") rfl,
    (group_line_structure.1 (fun _ => (none, some "boom"))).2⟩

theorem rne_zero_mul : rne ((0 : ℚ) * 100) = 0 := by norm_num [rne]

theorem fmt2Fin_zero : fmt2Fin 0 = "0.00" := by
  simp only [fmt2Fin, rne_zero_mul]
  rfl

theorem fmt2Signed_fin_zero : fmt2Signed (PyFloat.fin 0) = "+0.00" := by
  simp only [fmt2Signed]
  rw [if_neg (by norm_num), fmt2Fin_zero]
  rfl

theorem format_change_fin_zero : format_change (PyFloat.fin 0) = "↔️ +0.00%" := by
  unfold format_change
  rw [if_neg (by decide), if_neg (by decide), fmt2Signed_fin_zero]
  rfl

theorem format_change_negZero : format_change PyFloat.negZero = "↔️ -0.00%" := rfl

/-- C7 counterexample: the float -0.0 is a zero delta reachable in the
pipeline — the change -0.001 of the series [1000, 999.99] rounds to -0.0
— and it renders as "↔️ -0.00%", while the zero delta +0.0 renders as
"↔️ +0.00%": both "+0.00%" and "-0.00%" are produced for zero deltas,
against the claim that the two are never both produced. -/
theorem negative_zero_both_strings :
    get_fx_data [some 1000, some (99999 / 100)] 5 =
      (some { rate := 99999 / 100, daily_change := PyFloat.negZero,
              weekly_change := PyFloat.fin 0 }, none) ∧
    format_change PyFloat.negZero = "↔️ -0.00%" ∧
    format_change (PyFloat.fin 0) = "↔️ +0.00%" ∧
    strHas (format_change PyFloat.negZero) "-0.00%" = true ∧
    strHas (format_change (PyFloat.fin 0)) "+0.00%" = true := by
  refine ⟨?_, format_change_negZero, format_change_fin_zero, ?_, ?_⟩
  · norm_num [get_fx_data, dropna, lastClose, prevClose, weekAgoClose, weeklyRaw,
      pctChange, pyRound2, round2, rne, List.filterMap, List.getLastD, List.getD]
  · rw [format_change_negZero]
    decide
  · rw [format_change_fin_zero]
    decide

/-- C7 (amended): every zero delta, the negatively signed zero included,
renders in the flat/neutral form with the ↔️ indicator — never as an
up/down form — but the zero's float sign is kept in the text, so +0.0
yields "↔️ +0.00%" and -0.0 yields "↔️ -0.00%" (both zero strings occur,
each in the neutral form only); a positive change renders with the upward
indicator, a negative change with the downward indicator, and every value
neither greater nor less than zero takes the neutral branch. -/
theorem format_change_signs :
    format_change (PyFloat.fin 0) = "↔️ +0.00%" ∧
    format_change PyFloat.negZero = "↔️ -0.00%" ∧
    (∀ q : ℚ, 0 < q →
      format_change (PyFloat.fin q) = "*⬆️ +" ++ fmt2 (PyFloat.fin q) ++ "%*") ∧
    (∀ q : ℚ, q < 0 →
      format_change (PyFloat.fin q) = "*⬇️ " ++ fmt2Signed (PyFloat.fin q) ++ "%*") ∧
    (∀ x : PyFloat, pyGtZero x = false → pyLtZero x = false →
      format_change x = "↔️ " ++ fmt2Signed x ++ "%") := by
  refine ⟨format_change_fin_zero, format_change_negZero, ?_, ?_, ?_⟩
  · intro q h
    unfold format_change
    rw [if_pos (by simp [pyGtZero, h])]
  · intro q h
    unfold format_change
    rw [if_neg (by simp [pyGtZero, asymm h]), if_pos (by simp [pyLtZero, h])]
  · intro x h1 h2
    unfold format_change
    rw [if_neg (by simp [h1]), if_neg (by simp [h2])]

/-- C7 witness: a positive and a negative change value. -/
theorem format_change_signs_witness :
    format_change (PyFloat.fin 1) = "*⬆️ +" ++ fmt2 (PyFloat.fin 1) ++ "%*" ∧
    format_change (PyFloat.fin (-1)) = "*⬇️ " ++ fmt2Signed (PyFloat.fin (-1)) ++ "%*" :=
  ⟨format_change_signs.2.2.1 1 (by norm_num),
   format_change_signs.2.2.2.1 (-1) (by norm_num)⟩

/-- C8 counterexample: a series with 2 closes and an empty volume series is
a per-symbol failure, not a successful record — the claim that an empty
volume series still yields a record fails at this concrete input. -/
theorem empty_volume_series_counterexample :
    get_price_data [some 100, some 98] [] ⟨none, none⟩ 5 =
      (none, some (queryFailEquity indexErrMsg)) :=
  get_price_data_empty_volumes _ _ _ _ (by decide) rfl

/-- C8 (amended): an equity series with at least 2 non-null closes but an
empty volume series after null filtering is a per-symbol failure — the
read of the latest volume raises IndexError, caught and converted to a
failure result — and a returned record reports as volume the latest entry
of the volume series, which it has only when that series is non-empty. -/
theorem empty_volume_failure :
    (∀ (closes volumes : List (Option ℚ)) (info : EquityInfo) (days : ℕ),
      2 ≤ (dropna closes).length → dropna volumes = [] →
      get_price_data closes volumes info days = (none, some (queryFailEquity indexErrMsg))) ∧
    (∀ (closes volumes : List (Option ℚ)) (info : EquityInfo) (days : ℕ)
      (rec : PriceRecord) (err : Option String),
      get_price_data closes volumes info days = (some rec, err) →
      dropna volumes ≠ [] ∧ rec.volume = truncInt (lastClose (dropna volumes))) := by
  constructor
  · exact fun closes volumes info days h2 hv => get_price_data_empty_volumes _ _ _ _ h2 hv
  · intro closes volumes info days rec err h
    obtain ⟨-, hv, hrec, -⟩ := get_price_data_of_some _ _ _ _ _ _ h
    exact ⟨hv, by rw [hrec]⟩

/-- C8 witness: a volume series whose only entry is null. -/
theorem empty_volume_failure_witness :
    get_price_data [some 100, some 98] [none] ⟨none, none⟩ 5 =
      (none, some (queryFailEquity indexErrMsg)) :=
  empty_volume_failure.1 [some 100, some 98] [none] ⟨none, none⟩ 5 (by decide) rfl

/-- C9 counterexample: HTTP 204 is a 2xx response of the webhook transport,
yet `send_to_slack` raises the delivery error rather than succeeding. -/
theorem send_two_xx_counterexample :
    (200 ≤ 204 ∧ 204 ≤ 299) ∧
    send_to_slack (Except.ok 204) =
      Except.error "Slack 메시지 전송 실패: Slack 서버 응답 오류: HTTP 204" :=
  ⟨by decide, rfl⟩

/-- C9 (amended): `send_to_slack` returns normally exactly when the
transport returned HTTP status 200; every other status — other 2xx codes
included — and every transport exception fails with the delivery error. -/
theorem send_succeeds_iff_200 (response : Except String ℕ) :
    send_to_slack response = Except.ok () ↔ response = Except.ok 200 := by
  cases response with
  | error e => simp [send_to_slack]
  | ok s =>
    constructor
    · intro h
      by_contra hne
      have hs : s ≠ 200 := fun he => hne (by rw [he])
      simp only [send_to_slack] at h
      by_cases h4 : 400 ≤ s ∧ s < 600
      · rw [if_pos h4] at h
        exact Except.noConfusion h
      · rw [if_neg h4, if_pos hs] at h
        exact Except.noConfusion h
    · intro h
      injection h with h200
      subst h200
      rfl

/-- C9 witness: status 200 succeeds. -/
theorem send_succeeds_iff_200_witness : send_to_slack (Except.ok 200) = Except.ok () :=
  (send_succeeds_iff_200 (Except.ok 200)).mpr rfl

/-- C10: the FX record's rate is the final close rounded to exactly 2
decimal places (the constant 2 of line 127), while the equity record's
price is the final close unrounded. -/
theorem fx_rate_rounded_price_unrounded :
    (∀ (closes : List (Option ℚ)) (days : ℕ) (rec : FxRecord) (err : Option String),
      get_fx_data closes days = (some rec, err) →
      rec.rate = round2 (lastClose (dropna closes))) ∧
    (∀ (closes volumes : List (Option ℚ)) (info : EquityInfo) (days : ℕ)
      (rec : PriceRecord) (err : Option String),
      get_price_data closes volumes info days = (some rec, err) →
      rec.price = lastClose (dropna closes)) := by
  constructor
  · intro closes days rec err h
    obtain ⟨-, hrec, -⟩ := get_fx_data_of_some _ _ _ _ h
    rw [hrec]
  · intro closes volumes info days rec err h
    obtain ⟨-, -, hrec, -⟩ := get_price_data_of_some _ _ _ _ _ _ h
    rw [hrec]

/-- C10 witness: the series [1, 1.234], where the FX rate 1.23 differs from
the unrounded equity price 1.234. -/
theorem fx_rate_rounded_price_unrounded_witness :
    (⟨1.23, PyFloat.fin 23.4, PyFloat.fin 0⟩ : FxRecord).rate =
      round2 (lastClose (dropna [some 1, some 1.234])) ∧
    (⟨1.234, 0, 0, PyFloat.fin 23.4, PyFloat.fin 0, 2⟩ : PriceRecord).price =
      lastClose (dropna [some 1, some 1.234]) :=
  ⟨fx_rate_rounded_price_unrounded.1 [some 1, some 1.234] 5
      ⟨1.23, PyFloat.fin 23.4, PyFloat.fin 0⟩ none
      (by norm_num [get_fx_data, dropna, lastClose, prevClose, weekAgoClose, weeklyRaw,
        pctChange, pyRound2, round2, rne, List.filterMap, List.getLastD, List.getD]),
    fx_rate_rounded_price_unrounded.2 [some 1, some 1.234] [some 2] ⟨none, none⟩ 5
      ⟨1.234, 0, 0, PyFloat.fin 23.4, PyFloat.fin 0, 2⟩ none
      (by norm_num [get_price_data, dropna, lastClose, prevClose, weekAgoClose, weeklyRaw,
        pctChange, pyRound2, round2, rne, truncInt, List.filterMap, List.getLastD,
        List.getD])⟩
